import Mathlib

set_option maxRecDepth 8000

/-! Verification of the curie-formatter module
`src/app/improving_agent/src/normalization/curie_formatters.py`.

The module translates biomedical identifiers (curies) between the SPOKE
graph-database format and the SRI Node Normalizer formats via two
pattern-keyed registries.  Python's `re.match(pattern, s)` is truthy iff
`pattern` matches some prefix of `s` starting at position 0; patterns here
use literal characters, `.`, character classes, `+`, bounded repetition
`{m}` / `{m,n}`, alternation `|`, grouping, and the `^` position assertion
(which, without `re.MULTILINE`, holds only at position 0 — in particular a
`^` reachable only after consuming characters can never hold).  The engine
below implements exactly this prefix-match semantics with Brzozowski
derivatives carrying an `atStart` flag for `^`.  Whether a match exists is
independent of Python's greedy/backtracking match selection, so the
boolean `reMatch` coincides with truthiness of `re.match`. -/

/-- Python runtime values that flow through the curie formatters: the
search direction accepts both strings and ints (SPOKE gene identifiers are
ints, see the comment on `SPOKE_IDENTIFIER_REGEX_GENE` in the source). -/
inductive PyValue where
  | s (v : String)
  | i (n : Int)
deriving DecidableEq

/-- Python `str(...)` as applied to the curie values above (used by
`format_curie_for_sri` line 140: `re.match(regex, str(search_node.curie))`
and by the f-strings of the search formatters).  Python and Lean print
integers identically (optional leading `-`, then decimal digits). -/
def PyValue.toStr : PyValue → String
  | .s v => v
  | .i n => toString n

/-- Result values of the SPOKE-direction formatters: every formatter
returns the (possibly prefix-stripped) identifier string except the Gene
formatter, which returns a Python int. -/
inductive SpokeValue where
  | s (v : String)
  | i (n : Int)
deriving DecidableEq

/-- The exceptions the module can raise.
`unsupportedType` models `werkzeug.exceptions.NotImplemented` (HTTP 501),
raised at line 248 (the spec calls this failure `UnsupportedTypeError`);
`unmatchedIdentifier` models `improving_agent.exceptions.UnmatchedIdentifierError`
raised at line 256; `valueError` models Python's builtin `ValueError`
(possible inside `int(...)` in `_format_gene_for_spoke`). -/
inductive TranslationError where
  | unsupportedType (msg : String)
  | unmatchedIdentifier (msg : String)
  | valueError (msg : String)
deriving DecidableEq

deriving instance DecidableEq for Except

/-! ## Regular-expression engine (semantics of Python `re.match`) -/

/-- Abstract syntax of the regex fragment used by the module:
`failR` (empty language) and `epsR` (empty string) arise during
differentiation; `anchorStart` is `^`; `charR` a literal character;
`anyR` is `.` (any character except newline); `clsR` a character class
given by closed ranges (a literal member `x` is the range `(x, x)`);
`seqR`/`altR` concatenation and alternation; `repR r lo hi` is
`r{lo,hi}` with `hi = none` for an unbounded upper end (`+` is
`repR r 1 none`). -/
inductive Regex where
  | failR
  | epsR
  | anchorStart
  | charR (c : Char)
  | anyR
  | clsR (ranges : List (Char × Char))
  | seqR (a b : Regex)
  | altR (a b : Regex)
  | repR (r : Regex) (lo : Nat) (hi : Option Nat)
deriving DecidableEq

/-- Does the regex accept the empty string here?  `atStart` records
whether the current position is position 0 (for `^`). -/
def Regex.nullable (atStart : Bool) : Regex → Bool
  | .failR => false
  | .epsR => true
  | .anchorStart => atStart
  | .charR _ => false
  | .anyR => false
  | .clsR _ => false
  | .seqR a b => a.nullable atStart && b.nullable atStart
  | .altR a b => a.nullable atStart || b.nullable atStart
  | .repR r lo _ => lo == 0 || r.nullable atStart

/-- Concatenation smart constructor (absorbs `failR`, drops `epsR`);
preserves the recognised language. -/
def Regex.seqS : Regex → Regex → Regex
  | .failR, _ => .failR
  | .epsR, b => b
  | _, .failR => .failR
  | a, .epsR => a
  | a, b => .seqR a b

/-- Alternation smart constructor (drops `failR`); preserves the
recognised language. -/
def Regex.altS : Regex → Regex → Regex
  | .failR, b => b
  | a, .failR => a
  | a, b => .altR a b

/-- Brzozowski derivative by character `c`; `atStart` tells whether the
position *before* `c` is position 0, so `^` can never survive a
consumed character.  For `repR`, if the body accepts the empty string the
lower bound is irrelevant (`r{lo,hi}` and `r{0,hi}` then recognise the
same words), after which one copy of `r` consumes `c` and up to `hi - 1`
copies remain. -/
def Regex.deriv (atStart : Bool) (c : Char) : Regex → Regex
  | .failR => .failR
  | .epsR => .failR
  | .anchorStart => .failR
  | .charR c0 => if c = c0 then .epsR else .failR
  | .anyR => if c = '\n' then .failR else .epsR
  | .clsR ranges =>
      if ranges.any (fun p => decide (p.1 ≤ c) && decide (c ≤ p.2)) then .epsR else .failR
  | .seqR a b =>
      Regex.altS (Regex.seqS (Regex.deriv atStart c a) b)
        (cond (a.nullable atStart) (Regex.deriv atStart c b) .failR)
  | .altR a b => Regex.altS (Regex.deriv atStart c a) (Regex.deriv atStart c b)
  | .repR r lo hi =>
      match hi with
      | some 0 => .failR
      | _ =>
        Regex.seqS (Regex.deriv atStart c r)
          (.repR r ((cond (r.nullable atStart) 0 lo) - 1) (hi.map Nat.pred))

/-- Does `r` match some prefix of the remaining characters?  Tries the
empty match at every position reached, exactly the success condition of
Python's backtracking prefix matcher. -/
def Regex.goMatch (r : Regex) (atStart : Bool) : List Char → Bool
  | [] => r.nullable atStart
  | c :: cs => r.nullable atStart || Regex.goMatch (r.deriv atStart c) false cs

/-- Truthiness of Python `re.match(r, s)`: `r` matches a prefix of `s`
anchored at position 0. -/
def reMatch (r : Regex) (s : String) : Bool := r.goMatch true s.toList

/-- Length of the longest prefix match of `r` starting at the current
position (`none` if there is no match).  Python's greedy matching picks
the longest alternative-respecting match; for the one pattern this model
feeds here (`^CHEMBL.COMPOUND:|^DRUGBANK:`, two fixed-length alternatives
that cannot both match) every match has the same length, so "longest"
agrees with Python's choice. -/
def Regex.goLongest (r : Regex) (atStart : Bool) (idx : Nat) : List Char → Option Nat
  | [] => cond (r.nullable atStart) (some idx) none
  | c :: cs =>
    match Regex.goLongest (r.deriv atStart c) false (idx + 1) cs with
    | some j => some j
    | none => cond (r.nullable atStart) (some idx) none

/-! ## Python string helpers used by the formatters -/

/-- Fuelled core of `pyReplace`; the fuel (the input length) only rules
out the empty-pattern corner that the wrapper already excludes. -/
def pyReplaceAux (pat repl : List Char) : Nat → List Char → List Char
  | _, [] => []
  | 0, s => s
  | fuel + 1, c :: cs =>
    if pat.isPrefixOf (c :: cs) then
      repl ++ pyReplaceAux pat repl fuel ((c :: cs).drop pat.length)
    else
      c :: pyReplaceAux pat repl fuel cs

/-- Python `s.replace(pat, repl)`: replaces every non-overlapping
occurrence, scanning left to right.  (For an empty pattern Python
interleaves `repl` everywhere; the patterns used in this module,
`'NCBIGene:'` and `'UniProtKB:'`, are never empty, and this model returns
`s` unchanged in that unused corner.) -/
def pyReplace (s pat repl : String) : String :=
  if pat.toList.isEmpty then s
  else String.mk (pyReplaceAux pat.toList repl.toList s.toList.length s.toList)

/-- Whitespace stripped by Python `int(str)`. -/
def pyIsSpace (c : Char) : Bool :=
  c = ' ' || c = '\t' || c = '\n' || c = '\r' || c = '\x0b' || c = '\x0c'

/-- Decimal digit-string value, `none` when empty or not all digits. -/
def digitsToNat : List Char → Option Nat
  | [] => none
  | l =>
    if l.all Char.isDigit then
      some (l.foldl (fun acc c => acc * 10 + (c.toNat - '0'.toNat)) 0)
    else none

/-- Python `int(str)`: surrounding whitespace stripped, an optional sign,
then decimal digits; `none` models the `ValueError` raise.  (Digit-group
underscores and non-ASCII digits, which Python also accepts, do not occur
in this module.) -/
def pyInt (s : String) : Option Int :=
  let t := ((s.toList.dropWhile pyIsSpace).reverse.dropWhile pyIsSpace).reverse
  match t with
  | '-' :: rest => (digitsToNat rest).map (fun n => -(n : Int))
  | '+' :: rest => (digitsToNat rest).map (fun n => (n : Int))
  | l => (digitsToNat l).map (fun n => (n : Int))

/-! ## Data model

The SPOKE label and biolink category constants are imported by the source
from `improving_agent.src.spoke_biolink_constants` (outside this file);
they are distinct opaque tags, modelled as enumerations.  `OTHER` covers
every biolink category other than the four for which search formatters are
registered (the registries are Python dicts keyed by arbitrary category
values). -/

/-- The SPOKE node-type labels (`SPOKE_LABEL_*` constants). -/
inductive SpokeLabel where
  | ANATOMY
  | ANATOMY_CELL_TYPE
  | BIOLOGICAL_PROCESS
  | CELL_TYPE
  | CELLULAR_COMPONENT
  | COMPOUND
  | DISEASE
  | FOOD
  | GENE
  | MOLECULAR_FUNCTION
  | NUTRIENT
  | PATHWAY
  | PHARMACOLOGIC_CLASS
  | PROTEIN
  | SIDE_EFFECT
  | SYMPTOM
deriving DecidableEq

/-- Biolink entity categories (`BIOLINK_ENTITY_*` constants); `OTHER`
stands for any category value with no registered search formatter. -/
inductive BiolinkCategory where
  | CHEMICAL_SUBSTANCE
  | GENE
  | PROTEIN
  | PHENOTYPIC_FEATURE
  | OTHER (name : String)
deriving DecidableEq

/-- A `SearchNode` (imported by the source from the normalization
package's `__init__`): an entity category paired with a curie.  A `QNode`
passed to `format_curie_for_sri` (line 134, `QNode` lives in
`improving_agent.models`, outside this file) is first projected to
`SearchNode(qnode.category[0], qnode.id[0])`; the embedding takes the
already-projected `SearchNode`. -/
structure SearchNode where
  category : BiolinkCategory
  curie : PyValue

/-- One record of a node-normalizer response's equivalent-identifier
list, exposing its `identifier` string
(`NODE_NORMALIZATION_RESPONSE_VALUE_IDENTIFIER`). -/
structure EquivalentIdentifier where
  identifier : String
deriving DecidableEq

/-- The slice of an SRI Node Normalizer response read by
`get_spoke_identifier_from_normalized_node`: its
`equivalent_identifiers` list
(`NODE_NORMALIZATION_RESPONSE_VALUE_EQUIVALENT_IDENTIFIERS`), in response
order. -/
structure NormalizedNode where
  equivalent_identifiers : List EquivalentIdentifier
deriving DecidableEq

/-! ## The SPOKE identifier patterns (lines 62-97)

Each definition is the translation of the Python pattern string named in
its doc comment. -/

/-- Concatenation of a list of regex atoms. -/
def rxCat (l : List Regex) : Regex := l.foldr Regex.seqR Regex.epsR

/-- The literal characters of `s` as regex atoms. -/
def rxLits (s : String) : List Regex := s.toList.map Regex.charR

/-- The class `[0-9]`. -/
def rxDigit : Regex := Regex.clsR [('0', '9')]

/-- Source: `'^UBERON:[0-9]{7}'`. -/
def SPOKE_IDENTIFIER_REGEX_ANATOMY : Regex :=
  rxCat ([Regex.anchorStart] ++ rxLits "UBERON:" ++ [Regex.repR rxDigit 7 (some 7)])

/-- Source: `'^GO:[0-9]{7}'`. -/
def SPOKE_IDENTIFIER_REGEX_BIOLOGICAL_PROCESS : Regex :=
  rxCat ([Regex.anchorStart] ++ rxLits "GO:" ++ [Regex.repR rxDigit 7 (some 7)])

/-- Source: `'^CL:[0-9]{7}'`. -/
def SPOKE_IDENTIFIER_REGEX_CELL_TYPE : Regex :=
  rxCat ([Regex.anchorStart] ++ rxLits "CL:" ++ [Regex.repR rxDigit 7 (some 7)])

/-- Source: `'^GO:[0-9]{7}'`. -/
def SPOKE_IDENTIFIER_REGEX_CELLULAR_COMPONENT : Regex :=
  rxCat ([Regex.anchorStart] ++ rxLits "GO:" ++ [Regex.repR rxDigit 7 (some 7)])

/-- Source: `'^CHEMBL[0-9]+|^DB[0-9]+'`. -/
def SPOKE_IDENTIFIER_REGEX_COMPOUND : Regex :=
  Regex.altR (rxCat ([Regex.anchorStart] ++ rxLits "CHEMBL" ++ [Regex.repR rxDigit 1 none]))
    (rxCat ([Regex.anchorStart] ++ rxLits "DB" ++ [Regex.repR rxDigit 1 none]))

/-- Source: `'^DOID:[0-9]+'`. -/
def SPOKE_IDENTIFIER_REGEX_DISEASE : Regex :=
  rxCat ([Regex.anchorStart] ++ rxLits "DOID:" ++ [Regex.repR rxDigit 1 none])

/-- Source: `'^FOOD[0-9]{5}'`. -/
def SPOKE_IDENTIFIER_REGEX_FOOD : Regex :=
  rxCat ([Regex.anchorStart] ++ rxLits "FOOD" ++ [Regex.repR rxDigit 5 (some 5)])

/-- Source: `'^[0-9]+'` (the identifier is an int in SPOKE). -/
def SPOKE_IDENTIFIER_REGEX_GENE : Regex :=
  rxCat [Regex.anchorStart, Regex.repR rxDigit 1 none]

/-- Source: `'^GO:[0-9]{7}'`. -/
def SPOKE_IDENTIFIER_REGEX_MOLECULAR_FUNCTION : Regex :=
  rxCat ([Regex.anchorStart] ++ rxLits "GO:" ++ [Regex.repR rxDigit 7 (some 7)])

/-- Source: `'^FDBN[0-9]{5}'`. -/
def SPOKE_IDENTIFIER_REGEX_NUTRIENT : Regex :=
  rxCat ([Regex.anchorStart] ++ rxLits "FDBN" ++ [Regex.repR rxDigit 5 (some 5)])

/-- Source: `'^WP[0-9]{1,6}_r[0-9]{6}'`. -/
def SPOKE_IDENTIFIER_REGEX_PATHWAY : Regex :=
  rxCat ([Regex.anchorStart] ++ rxLits "WP" ++ [Regex.repR rxDigit 1 (some 6)]
    ++ rxLits "_r" ++ [Regex.repR rxDigit 6 (some 6)])

/-- Source: `'^N[0-9]{10}'`. -/
def SPOKE_IDENTIFIER_REGEX_PHARMACOLOGIC_CLASS : Regex :=
  rxCat ([Regex.anchorStart] ++ rxLits "N" ++ [Regex.repR rxDigit 10 (some 10)])

/-- Source:
`'[OPQ][0-9][A-Z0-9]{3}[0-9]|[A-NR-Z][0-9]([A-Z][A-Z0-9]{2}[0-9]){1,2}'`
(no `^`; `re.match` anchors at position 0 regardless). -/
def SPOKE_IDENTIFIER_REGEX_PROTEIN : Regex :=
  Regex.altR
    (rxCat [Regex.clsR [('O', 'O'), ('P', 'P'), ('Q', 'Q')], rxDigit,
      Regex.repR (Regex.clsR [('A', 'Z'), ('0', '9')]) 3 (some 3), rxDigit])
    (rxCat [Regex.clsR [('A', 'N'), ('R', 'Z')], rxDigit,
      Regex.repR (rxCat [Regex.clsR [('A', 'Z')],
        Regex.repR (Regex.clsR [('A', 'Z'), ('0', '9')]) 2 (some 2), rxDigit]) 1 (some 2)])

/-- Source: `'^C[0-9]{7}'`. -/
def SPOKE_IDENTIFIER_REGEX_SIDE_EFFECT : Regex :=
  rxCat ([Regex.anchorStart] ++ rxLits "C" ++ [Regex.repR rxDigit 7 (some 7)])

/-- Source: `'^D[0-9]{5,9}'`. -/
def SPOKE_IDENTIFIER_REGEX_SYMPTOM : Regex :=
  rxCat ([Regex.anchorStart] ++ rxLits "D" ++ [Regex.repR rxDigit 5 (some 9)])

/-- Source (line 78): the f-string
`f'{SPOKE_IDENTIFIER_REGEX_ANATOMY}/{SPOKE_IDENTIFIER_REGEX_CELL_TYPE}'`,
i.e. the two patterns concatenated around `'/'`; the second `^` sits
mid-pattern and (without MULTILINE) can never hold there. -/
def SPOKE_IDENTIFIER_REGEX_ANATOMY_CELL_TYPE : Regex :=
  rxCat [SPOKE_IDENTIFIER_REGEX_ANATOMY, Regex.charR '/', SPOKE_IDENTIFIER_REGEX_CELL_TYPE]

/-- The acceptability pattern table `SPOKE_IDENTIFIER_REGEXES`
(lines 80-97), keyed by SPOKE label. -/
def SPOKE_IDENTIFIER_REGEXES : SpokeLabel → Regex
  | .ANATOMY => SPOKE_IDENTIFIER_REGEX_ANATOMY
  | .ANATOMY_CELL_TYPE => SPOKE_IDENTIFIER_REGEX_ANATOMY_CELL_TYPE
  | .BIOLOGICAL_PROCESS => SPOKE_IDENTIFIER_REGEX_BIOLOGICAL_PROCESS
  | .CELL_TYPE => SPOKE_IDENTIFIER_REGEX_CELL_TYPE
  | .CELLULAR_COMPONENT => SPOKE_IDENTIFIER_REGEX_CELLULAR_COMPONENT
  | .COMPOUND => SPOKE_IDENTIFIER_REGEX_COMPOUND
  | .DISEASE => SPOKE_IDENTIFIER_REGEX_DISEASE
  | .FOOD => SPOKE_IDENTIFIER_REGEX_FOOD
  | .GENE => SPOKE_IDENTIFIER_REGEX_GENE
  | .MOLECULAR_FUNCTION => SPOKE_IDENTIFIER_REGEX_MOLECULAR_FUNCTION
  | .NUTRIENT => SPOKE_IDENTIFIER_REGEX_NUTRIENT
  | .PATHWAY => SPOKE_IDENTIFIER_REGEX_PATHWAY
  | .PHARMACOLOGIC_CLASS => SPOKE_IDENTIFIER_REGEX_PHARMACOLOGIC_CLASS
  | .PROTEIN => SPOKE_IDENTIFIER_REGEX_PROTEIN
  | .SIDE_EFFECT => SPOKE_IDENTIFIER_REGEX_SIDE_EFFECT
  | .SYMPTOM => SPOKE_IDENTIFIER_REGEX_SYMPTOM

/-! ## Search-direction formatters and registry (lines 100-143)

`NODE_NORMALIZATION_SEARCH_CURIE_FORMATTERS` is a
`defaultdict(dict)` mapping a category to a regex-keyed dict of
formatter functions; Python dicts iterate in insertion order, so each
category's rules form the list of its decorator registrations in source
order.  The five registered (category, regex) keys are pairwise distinct,
so no registration overwrites another. -/

/-- Search pattern `'^CHEMBL[0-9]+'` (decorator at line 108). -/
def CHEMBL_SEARCH_REGEX : Regex :=
  rxCat ([Regex.anchorStart] ++ rxLits "CHEMBL" ++ [Regex.repR rxDigit 1 none])

/-- Search pattern `'^DB[0-9]+'` (decorator at line 113). -/
def DRUGBANK_SEARCH_REGEX : Regex :=
  rxCat ([Regex.anchorStart] ++ rxLits "DB" ++ [Regex.repR rxDigit 1 none])

/-- Line 110: `return f"CHEMBL.COMPOUND:{curie}"`. -/
def _format_chembl_for_search (curie : PyValue) : String :=
  "CHEMBL.COMPOUND:" ++ curie.toStr

/-- Line 115: `return f"DRUGBANK:{curie}"`. -/
def _format_drugbank_for_search (curie : PyValue) : String :=
  "DRUGBANK:" ++ curie.toStr

/-- Line 120: `return f'NCBIGene:{curie}'`. -/
def _format_ncbigene_for_search (curie : PyValue) : String :=
  "NCBIGene:" ++ curie.toStr

/-- Line 125: `return f'MESH:{curie}'`. -/
def _format_symptom_for_search (curie : PyValue) : String :=
  "MESH:" ++ curie.toStr

/-- Line 130: `return f'UniProtKB:{curie}'`. -/
def _format_protein_for_search (curie : PyValue) : String :=
  "UniProtKB:" ++ curie.toStr

/-- The search-direction registry after all decorators have run, in
registration order per category. -/
def NODE_NORMALIZATION_SEARCH_CURIE_FORMATTERS :
    BiolinkCategory → List (Regex × (PyValue → String))
  | .CHEMICAL_SUBSTANCE =>
    [(CHEMBL_SEARCH_REGEX, _format_chembl_for_search),
     (DRUGBANK_SEARCH_REGEX, _format_drugbank_for_search)]
  | .GENE => [(SPOKE_IDENTIFIER_REGEX_GENE, _format_ncbigene_for_search)]
  | .PHENOTYPIC_FEATURE => [(SPOKE_IDENTIFIER_REGEX_SYMPTOM, _format_symptom_for_search)]
  | .PROTEIN => [(SPOKE_IDENTIFIER_REGEX_PROTEIN, _format_protein_for_search)]
  | .OTHER _ => []

/-- Lines 133-143.  `NODE_NORMALIZATION_SEARCH_CURIE_FORMATTERS.get`
yields `None` for an unknown category (`defaultdict.get` does not
insert), and `if not format_funcs` treats both `None` and an empty dict
as "no rules", returning the curie unchanged; otherwise the rules are
tried in insertion order against `str(search_node.curie)` and the first
match's formatter is applied to the original curie value. -/
def format_curie_for_sri (search_node : SearchNode) : PyValue :=
  let format_funcs := NODE_NORMALIZATION_SEARCH_CURIE_FORMATTERS search_node.category
  if format_funcs.isEmpty then search_node.curie
  else
    match format_funcs.find? (fun p => reMatch p.1 search_node.curie.toStr) with
    | some p => PyValue.s (p.2 search_node.curie)
    | none => search_node.curie

/-! ## SPOKE-direction (result) formatters and registry (lines 146-233) -/

/-- SPOKE pattern `'^CHEMBL.COMPOUND:|^DRUGBANK:'` (decorator at
line 175); the `.` is the any-character metacharacter. -/
def COMPOUND_SPOKE_REGEX : Regex :=
  Regex.altR
    (rxCat ([Regex.anchorStart] ++ rxLits "CHEMBL" ++ [Regex.anyR] ++ rxLits "COMPOUND:"))
    (rxCat ([Regex.anchorStart] ++ rxLits "DRUGBANK:"))

/-- SPOKE pattern `'^NCBIGene:'` (decorator at line 190). -/
def NCBIGENE_SPOKE_REGEX : Regex :=
  rxCat ([Regex.anchorStart] ++ rxLits "NCBIGene:")

/-- SPOKE pattern `'^UniProtKB:'` (decorator at line 215). -/
def UNIPROT_SPOKE_REGEX : Regex :=
  rxCat ([Regex.anchorStart] ++ rxLits "UniProtKB:")

/-- SPOKE pattern `'^MESH:D[0-9]+'` (decorator at line 225). -/
def MESH_SYMPTOM_REGEX : Regex :=
  rxCat ([Regex.anchorStart] ++ rxLits "MESH:D" ++ [Regex.repR rxDigit 1 none])

/-- Lines 156-157 (identity). -/
def _format_anatomy_for_spoke (curie : String) : Except TranslationError SpokeValue :=
  .ok (.s curie)

/-- Lines 161-162 (identity). -/
def _format_biological_process_for_spoke (curie : String) : Except TranslationError SpokeValue :=
  .ok (.s curie)

/-- Lines 166-167 (identity). -/
def _format_cell_type_for_spoke (curie : String) : Except TranslationError SpokeValue :=
  .ok (.s curie)

/-- Lines 171-172 (identity). -/
def _format_cellular_component_for_spoke (curie : String) : Except TranslationError SpokeValue :=
  .ok (.s curie)

/-- Line 177: `re.sub('^CHEMBL.COMPOUND:|^DRUGBANK:', '', curie)`.
With both alternatives `^`-anchored the only replaceable match is a
leading one, so `re.sub` strips at most one leading prefix match. -/
def _format_compound_for_spoke (curie : String) : Except TranslationError SpokeValue :=
  match COMPOUND_SPOKE_REGEX.goLongest true 0 curie.toList with
  | some k => .ok (.s (String.mk (curie.toList.drop k)))
  | none => .ok (.s curie)

/-- Lines 181-182 (identity). -/
def _format_disease_for_spoke (curie : String) : Except TranslationError SpokeValue :=
  .ok (.s curie)

/-- Lines 186-187 (identity). -/
def _format_food_for_spoke (curie : String) : Except TranslationError SpokeValue :=
  .ok (.s curie)

/-- Line 192: `return int(curie.replace('NCBIGene:', ''))`; `int` raises
`ValueError` if the remainder is not a decimal integer. -/
def _format_gene_for_spoke (curie : String) : Except TranslationError SpokeValue :=
  match pyInt (pyReplace curie "NCBIGene:" "") with
  | some n => .ok (.i n)
  | none => .error (.valueError (pyReplace curie "NCBIGene:" ""))

/-- Lines 196-197 (identity). -/
def _format_molecular_function_for_spoke (curie : String) : Except TranslationError SpokeValue :=
  .ok (.s curie)

/-- Lines 201-202 (identity). -/
def _format_nutrient_for_spoke (curie : String) : Except TranslationError SpokeValue :=
  .ok (.s curie)

/-- Lines 206-207 (identity). -/
def _format_pathway_for_spoke (curie : String) : Except TranslationError SpokeValue :=
  .ok (.s curie)

/-- Lines 211-212 (identity). -/
def _format_pharmacological_class_for_spoke (curie : String) : Except TranslationError SpokeValue :=
  .ok (.s curie)

/-- Line 217: `return curie.replace('UniProtKB:', '')`. -/
def _format_protein_for_spoke (curie : String) : Except TranslationError SpokeValue :=
  .ok (.s (pyReplace curie "UniProtKB:" ""))

/-- Lines 220-222 (identity). -/
def _format_side_effect_for_spoke (curie : String) : Except TranslationError SpokeValue :=
  .ok (.s curie)

/-- Lines 226-227 (identity). -/
def _format_symptom_for_spoke (curie : String) : Except TranslationError SpokeValue :=
  .ok (.s curie)

/-- One entry of the SPOKE-direction registry: the dict
`{NODE_NORMALIZATION_KEY_REGEX: regex, NODE_NORMALIZATION_KEY_FUNCTION: f}`
written by `register_spoke_curie_formatter`. -/
structure SpokeFormatterConfig where
  regex : Regex
  function : String → Except TranslationError SpokeValue

/-- The SPOKE-direction registry after all decorators have run.  Each
label is registered at most once in the source, so the dict's
"last registration wins" overwrite never fires; `ANATOMY_CELL_TYPE` is
the one label with no registration. -/
def NODE_NORMALIZATION_SPOKE_CURIE_FORMATTERS : SpokeLabel → Option SpokeFormatterConfig
  | .ANATOMY => some ⟨SPOKE_IDENTIFIER_REGEX_ANATOMY, _format_anatomy_for_spoke⟩
  | .ANATOMY_CELL_TYPE => none
  | .BIOLOGICAL_PROCESS =>
    some ⟨SPOKE_IDENTIFIER_REGEX_BIOLOGICAL_PROCESS, _format_biological_process_for_spoke⟩
  | .CELL_TYPE => some ⟨SPOKE_IDENTIFIER_REGEX_CELL_TYPE, _format_cell_type_for_spoke⟩
  | .CELLULAR_COMPONENT =>
    some ⟨SPOKE_IDENTIFIER_REGEX_CELLULAR_COMPONENT, _format_cellular_component_for_spoke⟩
  | .COMPOUND => some ⟨COMPOUND_SPOKE_REGEX, _format_compound_for_spoke⟩
  | .DISEASE => some ⟨SPOKE_IDENTIFIER_REGEX_DISEASE, _format_disease_for_spoke⟩
  | .FOOD => some ⟨SPOKE_IDENTIFIER_REGEX_FOOD, _format_food_for_spoke⟩
  | .GENE => some ⟨NCBIGENE_SPOKE_REGEX, _format_gene_for_spoke⟩
  | .MOLECULAR_FUNCTION =>
    some ⟨SPOKE_IDENTIFIER_REGEX_MOLECULAR_FUNCTION, _format_molecular_function_for_spoke⟩
  | .NUTRIENT => some ⟨SPOKE_IDENTIFIER_REGEX_NUTRIENT, _format_nutrient_for_spoke⟩
  | .PATHWAY => some ⟨SPOKE_IDENTIFIER_REGEX_PATHWAY, _format_pathway_for_spoke⟩
  | .PHARMACOLOGIC_CLASS =>
    some ⟨SPOKE_IDENTIFIER_REGEX_PHARMACOLOGIC_CLASS, _format_pharmacological_class_for_spoke⟩
  | .PROTEIN => some ⟨UNIPROT_SPOKE_REGEX, _format_protein_for_spoke⟩
  | .SIDE_EFFECT => some ⟨SPOKE_IDENTIFIER_REGEX_SIDE_EFFECT, _format_side_effect_for_spoke⟩
  | .SYMPTOM => some ⟨MESH_SYMPTOM_REGEX, _format_symptom_for_spoke⟩

/-- The message of the `NotImplemented` raise at line 248.  The Python
string literal has no `f` prefix, so the braces are literal text. -/
def UNSUPPORTED_TYPE_MSG : String :=
  "Could not find a SPOKE identifer formatter func for category \x7bspoke_label\x7d"

/-- Lines 230-233: true iff `re.match` of the label's acceptability
pattern on `curie` succeeds. -/
def is_qnode_curie_already_acceptable_for_spoke (spoke_label : SpokeLabel)
    (curie : String) : Bool :=
  if reMatch (SPOKE_IDENTIFIER_REGEXES spoke_label) curie then true else false

/-- Lines 236-256: look up the label's registered (regex, function)
config (raising `NotImplemented` when there is none), then return the
registered function applied to the first equivalent identifier matching
the registered regex, in response order; raise `UnmatchedIdentifierError`
carrying the searched curie when none matches. -/
def get_spoke_identifier_from_normalized_node (spoke_label : SpokeLabel)
    (normalized_node : NormalizedNode) (searched_curie : String) :
    Except TranslationError SpokeValue :=
  match NODE_NORMALIZATION_SPOKE_CURIE_FORMATTERS spoke_label with
  | none => .error (.unsupportedType UNSUPPORTED_TYPE_MSG)
  | some node_type_config =>
    match normalized_node.equivalent_identifiers.find?
        (fun eqid => reMatch node_type_config.regex eqid.identifier) with
    | some eqid => node_type_config.function eqid.identifier
    | none =>
      .error (.unmatchedIdentifier
        ("Specified search CURIE " ++ searched_curie ++ " could not be mapped to SPOKE"))

/-! ## Fixed tails of `'^MESH:D[0-9]+'`, used to read the matched prefix
back off a successful match. -/

/-- Tail of the symptom SPOKE pattern after `MESH:`. -/
def meshTail5 : Regex :=
  Regex.seqR (.charR 'D') (Regex.seqR (Regex.repR rxDigit 1 none) .epsR)

/-- Tail of the symptom SPOKE pattern after `MESH`. -/
def meshTail4 : Regex := Regex.seqR (.charR ':') meshTail5

/-- Tail of the symptom SPOKE pattern after `MES`. -/
def meshTail3 : Regex := Regex.seqR (.charR 'H') meshTail4

/-- Tail of the symptom SPOKE pattern after `ME`. -/
def meshTail2 : Regex := Regex.seqR (.charR 'S') meshTail3

/-- Tail of the symptom SPOKE pattern after `M`. -/
def meshTail1 : Regex := Regex.seqR (.charR 'E') meshTail2

/-- The symptom SPOKE pattern without its `^`. -/
def meshTail0 : Regex := Regex.seqR (.charR 'M') meshTail1

/-! ## Helper lemmas -/

/-- The empty language stays empty under matching. -/
theorem goMatch_failR (b : Bool) (cs : List Char) : Regex.goMatch .failR b cs = false := by
  induction cs generalizing b with
  | nil => rfl
  | cons c cs ih => simp [Regex.goMatch, Regex.deriv, Regex.nullable, ih]

/-- At position 0 a leading `^` is a no-op. -/
theorem goMatch_anchor_seqR (t : Regex) (cs : List Char) :
    Regex.goMatch (.seqR .anchorStart t) true cs = Regex.goMatch t true cs := by
  cases cs with
  | nil => simp [Regex.goMatch, Regex.nullable]
  | cons c cs =>
    simp [Regex.goMatch, Regex.deriv, Regex.nullable, Regex.seqS, Regex.altS]

/-- Matching a pattern that starts with a literal character consumes
exactly that character. -/
theorem goMatch_charR_step (ch c : Char) (t1 t2 : Regex) (b : Bool) (cs : List Char) :
    Regex.goMatch (.seqR (.charR ch) (.seqR t1 t2)) b (c :: cs)
      = if c = ch then Regex.goMatch (.seqR t1 t2) false cs else false := by
  by_cases hc : c = ch
  · subst hc
    simp [Regex.goMatch, Regex.deriv, Regex.nullable, Regex.seqS, Regex.altS]
  · simp [Regex.goMatch, Regex.deriv, Regex.nullable, Regex.seqS, Regex.altS, hc, goMatch_failR]

/-- `find?` returns the first element satisfying the predicate. -/
theorem find_first_match {α : Type} (p : α → Bool) (l1 l2 : List α) (x : α)
    (h1 : ∀ a ∈ l1, p a = false) (h2 : p x = true) :
    List.find? p (l1 ++ x :: l2) = some x := by
  induction l1 with
  | nil => simp [List.find?, h2]
  | cons a l ih =>
    have ha := h1 a (List.mem_cons_self a l)
    simp only [List.cons_append, List.find?, ha]
    exact ih (fun b hb => h1 b (List.mem_cons_of_mem a hb))

/-- A string matched by `'^MESH:D[0-9]+'` starts with `MESH:`. -/
theorem mesh_starts (s : String) (h : reMatch MESH_SYMPTOM_REGEX s = true) :
    ∃ rest : List Char, s.toList = 'M' :: 'E' :: 'S' :: 'H' :: ':' :: rest := by
  rw [reMatch] at h
  rw [(by decide : MESH_SYMPTOM_REGEX = Regex.seqR .anchorStart meshTail0),
    goMatch_anchor_seqR] at h
  revert h
  generalize s.toList = cs
  intro h
  cases cs with
  | nil => exact absurd h (by decide)
  | cons c0 cs0 =>
    rw [(by decide : meshTail0 = Regex.seqR (.charR 'M') (Regex.seqR (.charR 'E') meshTail2)),
      goMatch_charR_step] at h
    by_cases h0 : c0 = 'M'
    case neg => rw [if_neg h0] at h; exact absurd h (by decide)
    case pos =>
    subst h0
    rw [if_pos rfl] at h
    cases cs0 with
    | nil => exact absurd h (by decide)
    | cons c1 cs1 =>
      rw [(by decide : Regex.seqR (.charR 'E') meshTail2
            = Regex.seqR (.charR 'E') (Regex.seqR (.charR 'S') meshTail3)),
        goMatch_charR_step] at h
      by_cases h1 : c1 = 'E'
      case neg => rw [if_neg h1] at h; exact absurd h (by decide)
      case pos =>
      subst h1
      rw [if_pos rfl] at h
      cases cs1 with
      | nil => exact absurd h (by decide)
      | cons c2 cs2 =>
        rw [(by decide : Regex.seqR (.charR 'S') meshTail3
              = Regex.seqR (.charR 'S') (Regex.seqR (.charR 'H') meshTail4)),
          goMatch_charR_step] at h
        by_cases h2 : c2 = 'S'
        case neg => rw [if_neg h2] at h; exact absurd h (by decide)
        case pos =>
        subst h2
        rw [if_pos rfl] at h
        cases cs2 with
        | nil => exact absurd h (by decide)
        | cons c3 cs3 =>
          rw [(by decide : Regex.seqR (.charR 'H') meshTail4
                = Regex.seqR (.charR 'H') (Regex.seqR (.charR ':') meshTail5)),
            goMatch_charR_step] at h
          by_cases h3 : c3 = 'H'
          case neg => rw [if_neg h3] at h; exact absurd h (by decide)
          case pos =>
          subst h3
          rw [if_pos rfl] at h
          cases cs3 with
          | nil => exact absurd h (by decide)
          | cons c4 cs4 =>
            rw [(by decide : Regex.seqR (.charR ':') meshTail5
                  = Regex.seqR (.charR ':')
                    (Regex.seqR (.charR 'D') (Regex.seqR (Regex.repR rxDigit 1 none) .epsR))),
              goMatch_charR_step] at h
            by_cases h4 : c4 = ':'
            case neg => rw [if_neg h4] at h; exact absurd h (by decide)
            case pos =>
            subst h4
            exact ⟨cs4, rfl⟩

/-- A string starting with `M` never matches `'^D[0-9]{5,9}'`. -/
theorem symptom_native_M (rest : List Char) :
    Regex.goMatch SPOKE_IDENTIFIER_REGEX_SYMPTOM true ('M' :: rest) = false := by
  rw [(by decide : SPOKE_IDENTIFIER_REGEX_SYMPTOM
      = Regex.seqR .anchorStart
        (Regex.seqR (.charR 'D') (Regex.seqR (Regex.repR rxDigit 5 (some 9)) .epsR))),
    goMatch_anchor_seqR, goMatch_charR_step, if_neg (by decide)]

/-! ## The claims -/

/-- Claim C1: for every SPOKE label with no registered result-direction
rule, `get_spoke_identifier_from_normalized_node` fails with the
unsupported-type error (`NotImplemented` 501), regardless of the response
contents. -/
theorem claim_C1_unregistered_label_fails (label : SpokeLabel) (node : NormalizedNode)
    (sc : String) (h : NODE_NORMALIZATION_SPOKE_CURIE_FORMATTERS label = none) :
    get_spoke_identifier_from_normalized_node label node sc
      = Except.error (TranslationError.unsupportedType UNSUPPORTED_TYPE_MSG) := by
  simp [get_spoke_identifier_from_normalized_node, h]

/-- Witness for C1: `ANATOMY_CELL_TYPE` has no registered rule. -/
theorem claim_C1_witness :
    NODE_NORMALIZATION_SPOKE_CURIE_FORMATTERS SpokeLabel.ANATOMY_CELL_TYPE = none
    ∧ get_spoke_identifier_from_normalized_node SpokeLabel.ANATOMY_CELL_TYPE
        ⟨[⟨"UBERON:0000001/CL:0000001"⟩]⟩ "UBERON:0000001"
      = Except.error (TranslationError.unsupportedType UNSUPPORTED_TYPE_MSG) :=
  ⟨rfl, claim_C1_unregistered_label_fails _ _ _ rfl⟩

/-- Claim C2: Gene and Protein round trips.  The native gene id `12345`
formats to `NCBIGene:12345` for search and back to the int `12345`
through the result-direction rule; the native protein id `P12345` formats
to `UniProtKB:P12345` and back to `P12345`. -/
theorem claim_C2_gene_protein_roundtrip :
    _format_ncbigene_for_search (PyValue.i 12345) = "NCBIGene:12345"
    ∧ _format_gene_for_spoke "NCBIGene:12345" = Except.ok (SpokeValue.i 12345)
    ∧ _format_protein_for_search (PyValue.s "P12345") = "UniProtKB:P12345"
    ∧ _format_protein_for_spoke "UniProtKB:P12345" = Except.ok (SpokeValue.s "P12345")
    ∧ get_spoke_identifier_from_normalized_node SpokeLabel.GENE ⟨[⟨"NCBIGene:12345"⟩]⟩
        "NCBIGene:12345" = Except.ok (SpokeValue.i 12345)
    ∧ get_spoke_identifier_from_normalized_node SpokeLabel.PROTEIN ⟨[⟨"UniProtKB:P12345"⟩]⟩
        "UniProtKB:P12345" = Except.ok (SpokeValue.s "P12345") := by
  decide

/-- Claim C3: with a registered rule but no equivalent identifier
matching its pattern, `get_spoke_identifier_from_normalized_node` fails
with `UnmatchedIdentifierError` carrying the searched curie. -/
theorem claim_C3_no_match_unmatched_error (label : SpokeLabel) (cfg : SpokeFormatterConfig)
    (node : NormalizedNode) (sc : String)
    (hreg : NODE_NORMALIZATION_SPOKE_CURIE_FORMATTERS label = some cfg)
    (hnm : ∀ e ∈ node.equivalent_identifiers, reMatch cfg.regex e.identifier = false) :
    get_spoke_identifier_from_normalized_node label node sc
      = Except.error (TranslationError.unmatchedIdentifier
          ("Specified search CURIE " ++ sc ++ " could not be mapped to SPOKE")) := by
  have hfind : node.equivalent_identifiers.find? (fun e => reMatch cfg.regex e.identifier)
      = none :=
    List.find?_eq_none.mpr (fun x hx => by simp [hnm x hx])
  simp [get_spoke_identifier_from_normalized_node, hreg, hfind]

/-- Witness for C3: Disease rule registered, response contains only a
non-matching identifier. -/
theorem claim_C3_witness :
    NODE_NORMALIZATION_SPOKE_CURIE_FORMATTERS SpokeLabel.DISEASE
      = some ⟨SPOKE_IDENTIFIER_REGEX_DISEASE, _format_disease_for_spoke⟩
    ∧ (∀ e ∈ ([⟨"xyz"⟩] : List EquivalentIdentifier),
        reMatch SPOKE_IDENTIFIER_REGEX_DISEASE e.identifier = false)
    ∧ get_spoke_identifier_from_normalized_node SpokeLabel.DISEASE ⟨[⟨"xyz"⟩]⟩ "DOID:9351"
      = Except.error (TranslationError.unmatchedIdentifier
          "Specified search CURIE DOID:9351 could not be mapped to SPOKE") :=
  ⟨rfl, by decide,
    claim_C3_no_match_unmatched_error SpokeLabel.DISEASE
      ⟨SPOKE_IDENTIFIER_REGEX_DISEASE, _format_disease_for_spoke⟩
      ⟨[⟨"xyz"⟩]⟩ "DOID:9351" rfl (by decide)⟩

/-- Claim C4: with a registered rule and a first matching identifier `m`
(everything before `m` non-matching), the result is the registered
transform applied to `m`, whatever follows `m` in the response. -/
theorem claim_C4_first_match_short_circuit (label : SpokeLabel) (cfg : SpokeFormatterConfig)
    (pre post : List EquivalentIdentifier) (m : EquivalentIdentifier) (sc : String)
    (hreg : NODE_NORMALIZATION_SPOKE_CURIE_FORMATTERS label = some cfg)
    (hpre : ∀ e ∈ pre, reMatch cfg.regex e.identifier = false)
    (hm : reMatch cfg.regex m.identifier = true) :
    get_spoke_identifier_from_normalized_node label ⟨pre ++ m :: post⟩ sc
      = cfg.function m.identifier := by
  have hfind : (pre ++ m :: post).find? (fun e => reMatch cfg.regex e.identifier) = some m :=
    find_first_match _ _ _ _ hpre hm
  simp [get_spoke_identifier_from_normalized_node, hreg, hfind]

/-- Witness for C4: Disease; a non-matching entry precedes the match, a
further (matching) entry follows and is ignored. -/
theorem claim_C4_witness :
    NODE_NORMALIZATION_SPOKE_CURIE_FORMATTERS SpokeLabel.DISEASE
      = some ⟨SPOKE_IDENTIFIER_REGEX_DISEASE, _format_disease_for_spoke⟩
    ∧ (∀ e ∈ ([⟨"CHEBI:100"⟩] : List EquivalentIdentifier),
        reMatch SPOKE_IDENTIFIER_REGEX_DISEASE e.identifier = false)
    ∧ reMatch SPOKE_IDENTIFIER_REGEX_DISEASE "DOID:123" = true
    ∧ get_spoke_identifier_from_normalized_node SpokeLabel.DISEASE
        ⟨[⟨"CHEBI:100"⟩] ++ ⟨"DOID:123"⟩ :: [⟨"DOID:999"⟩]⟩ "DOID:123"
      = Except.ok (SpokeValue.s "DOID:123") :=
  ⟨rfl, by decide, by decide,
    claim_C4_first_match_short_circuit SpokeLabel.DISEASE
      ⟨SPOKE_IDENTIFIER_REGEX_DISEASE, _format_disease_for_spoke⟩
      [⟨"CHEBI:100"⟩] [⟨"DOID:999"⟩] ⟨"DOID:123"⟩ "DOID:123" rfl (by decide) (by decide)⟩

/-- Claim C5: `format_curie_for_sri` tries the category's rules in
registration order against the curie's string form and applies the first
matching rule's transform; in particular an earlier-registered matching
rule beats any later one. -/
theorem claim_C5_first_rule_in_registration_order (cat : BiolinkCategory) (curie : PyValue)
    (pre post : List (Regex × (PyValue → String))) (rule : Regex × (PyValue → String))
    (hreg : NODE_NORMALIZATION_SEARCH_CURIE_FORMATTERS cat = pre ++ rule :: post)
    (hpre : ∀ r ∈ pre, reMatch r.1 curie.toStr = false)
    (hrule : reMatch rule.1 curie.toStr = true) :
    format_curie_for_sri ⟨cat, curie⟩ = PyValue.s (rule.2 curie) := by
  have hne : (pre ++ rule :: post).isEmpty = false := by cases pre <;> rfl
  have hfind : (pre ++ rule :: post).find? (fun p => reMatch p.1 curie.toStr) = some rule :=
    find_first_match _ _ _ _ hpre hrule
  simp [format_curie_for_sri, hreg, hne, hfind]

/-- Witness for C5: for ChemicalSubstance the first (CHEMBL) rule does
not match `DB00316`, so the second (DRUGBANK) rule applies. -/
theorem claim_C5_witness :
    NODE_NORMALIZATION_SEARCH_CURIE_FORMATTERS BiolinkCategory.CHEMICAL_SUBSTANCE
      = [(CHEMBL_SEARCH_REGEX, _format_chembl_for_search)]
        ++ (DRUGBANK_SEARCH_REGEX, _format_drugbank_for_search) :: []
    ∧ (∀ r ∈ [(CHEMBL_SEARCH_REGEX, _format_chembl_for_search)],
        reMatch r.1 (PyValue.s "DB00316").toStr = false)
    ∧ reMatch DRUGBANK_SEARCH_REGEX (PyValue.s "DB00316").toStr = true
    ∧ format_curie_for_sri ⟨BiolinkCategory.CHEMICAL_SUBSTANCE, PyValue.s "DB00316"⟩
      = PyValue.s "DRUGBANK:DB00316" :=
  ⟨rfl, by decide, by decide,
    claim_C5_first_rule_in_registration_order BiolinkCategory.CHEMICAL_SUBSTANCE
      (PyValue.s "DB00316") [(CHEMBL_SEARCH_REGEX, _format_chembl_for_search)] []
      (DRUGBANK_SEARCH_REGEX, _format_drugbank_for_search) rfl (by decide) (by decide)⟩

/-- Claim C6: when the category has registered rules but none matches the
curie, `format_curie_for_sri` returns the curie unchanged (silent
pass-through, no error value exists in the search direction). -/
theorem claim_C6_no_match_passthrough (node : SearchNode)
    (_hne : NODE_NORMALIZATION_SEARCH_CURIE_FORMATTERS node.category ≠ [])
    (hnm : ∀ r ∈ NODE_NORMALIZATION_SEARCH_CURIE_FORMATTERS node.category,
        reMatch r.1 node.curie.toStr = false) :
    format_curie_for_sri node = node.curie := by
  have hfind : (NODE_NORMALIZATION_SEARCH_CURIE_FORMATTERS node.category).find?
      (fun p => reMatch p.1 node.curie.toStr) = none :=
    List.find?_eq_none.mpr (fun x hx => by simp [hnm x hx])
  cases hE : (NODE_NORMALIZATION_SEARCH_CURIE_FORMATTERS node.category).isEmpty <;>
    simp [format_curie_for_sri, hE, hfind]

/-- Witness for C6: Gene has one registered rule and `abc` matches no
rule, so the curie passes through unchanged. -/
theorem claim_C6_witness :
    NODE_NORMALIZATION_SEARCH_CURIE_FORMATTERS BiolinkCategory.GENE ≠ []
    ∧ (∀ r ∈ NODE_NORMALIZATION_SEARCH_CURIE_FORMATTERS BiolinkCategory.GENE,
        reMatch r.1 (PyValue.s "abc").toStr = false)
    ∧ format_curie_for_sri ⟨BiolinkCategory.GENE, PyValue.s "abc"⟩ = PyValue.s "abc" :=
  ⟨by simp [NODE_NORMALIZATION_SEARCH_CURIE_FORMATTERS], by decide,
    claim_C6_no_match_passthrough ⟨BiolinkCategory.GENE, PyValue.s "abc"⟩
      (by simp [NODE_NORMALIZATION_SEARCH_CURIE_FORMATTERS]) (by decide)⟩

/-- Claim C7: a category with zero registered search rules passes every
curie through unchanged. -/
theorem claim_C7_no_rules_passthrough (node : SearchNode)
    (hreg : NODE_NORMALIZATION_SEARCH_CURIE_FORMATTERS node.category = []) :
    format_curie_for_sri node = node.curie := by
  simp [format_curie_for_sri, hreg]

/-- Witness for C7: Disease is not a category with registered search
rules, so its curies are sent as-is. -/
theorem claim_C7_witness :
    NODE_NORMALIZATION_SEARCH_CURIE_FORMATTERS (BiolinkCategory.OTHER "biolink:Disease") = []
    ∧ format_curie_for_sri ⟨BiolinkCategory.OTHER "biolink:Disease", PyValue.s "DOID:1"⟩
      = PyValue.s "DOID:1" :=
  ⟨rfl, claim_C7_no_rules_passthrough
    ⟨BiolinkCategory.OTHER "biolink:Disease", PyValue.s "DOID:1"⟩ rfl⟩

/-- Claim C8: `is_qnode_curie_already_acceptable_for_spoke` answers
exactly whether the label's table pattern matches the identifier from the
start of the string; concretely for Disease, `DOID:0111771` is accepted
and `DOID` is not. -/
theorem claim_C8_acceptability_iff_table_match (label : SpokeLabel) (x : String) :
    (is_qnode_curie_already_acceptable_for_spoke label x = true
      ↔ reMatch (SPOKE_IDENTIFIER_REGEXES label) x = true)
    ∧ is_qnode_curie_already_acceptable_for_spoke SpokeLabel.DISEASE "DOID:0111771" = true
    ∧ is_qnode_curie_already_acceptable_for_spoke SpokeLabel.DISEASE "DOID" = false := by
  refine ⟨?_, by decide, by decide⟩
  cases hr : reMatch (SPOKE_IDENTIFIER_REGEXES label) x <;>
    simp [is_qnode_curie_already_acceptable_for_spoke, hr]

/-- Claim C9: a value returned for the Symptom label keeps its `MESH:`
prefix (the registered transform is the identity), and such a value never
satisfies the Symptom acceptability check, whose pattern is
`'^D[0-9]{5,9}'`. -/
theorem claim_C9_symptom_result_not_native (node : NormalizedNode) (sc : String)
    (v : SpokeValue)
    (h : get_spoke_identifier_from_normalized_node SpokeLabel.SYMPTOM node sc
      = Except.ok v) :
    ∃ t : String, v = SpokeValue.s ("MESH:" ++ t)
      ∧ is_qnode_curie_already_acceptable_for_spoke SpokeLabel.SYMPTOM ("MESH:" ++ t)
        = false := by
  simp only [get_spoke_identifier_from_normalized_node,
    NODE_NORMALIZATION_SPOKE_CURIE_FORMATTERS] at h
  cases hf : node.equivalent_identifiers.find?
      (fun eqid => reMatch MESH_SYMPTOM_REGEX eqid.identifier) with
  | none =>
    rw [hf] at h
    exact absurd h (by simp)
  | some e =>
    rw [hf] at h
    simp only [_format_symptom_for_spoke, Except.ok.injEq] at h
    have hm : reMatch MESH_SYMPTOM_REGEX e.identifier = true := by
      simpa using List.find?_some hf
    obtain ⟨rest, hrest⟩ := mesh_starts e.identifier hm
    have hcat : ("MESH:" ++ String.mk rest).toList = 'M' :: 'E' :: 'S' :: 'H' :: ':' :: rest :=
      rfl
    have hid : e.identifier = "MESH:" ++ String.mk rest :=
      String.ext (hrest.trans hcat.symm)
    refine ⟨String.mk rest, ?_, ?_⟩
    · rw [← h, hid]
    · simp only [is_qnode_curie_already_acceptable_for_spoke, SPOKE_IDENTIFIER_REGEXES,
        reMatch, hcat, symptom_native_M]
      simp

/-- Witness for C9 at a concrete Symptom response. -/
theorem claim_C9_witness :
    get_spoke_identifier_from_normalized_node SpokeLabel.SYMPTOM ⟨[⟨"MESH:D012345"⟩]⟩
        "MESH:D012345" = Except.ok (SpokeValue.s "MESH:D012345")
    ∧ ∃ t : String, SpokeValue.s "MESH:D012345" = SpokeValue.s ("MESH:" ++ t)
      ∧ is_qnode_curie_already_acceptable_for_spoke SpokeLabel.SYMPTOM ("MESH:" ++ t)
        = false :=
  ⟨by decide,
    claim_C9_symptom_result_not_native ⟨[⟨"MESH:D012345"⟩]⟩ "MESH:D012345" _ (by decide)⟩

/-- Claim C10: `format_curie_for_sri` matches on the curie's string form,
so the int `12345` is accepted for the Gene category: its string form
matches `'^[0-9]+'` and the formatted result is `NCBIGene:12345`. -/
theorem claim_C10_int_curie_accepted :
    (PyValue.i 12345).toStr = "12345"
    ∧ reMatch SPOKE_IDENTIFIER_REGEX_GENE (PyValue.i 12345).toStr = true
    ∧ format_curie_for_sri ⟨BiolinkCategory.GENE, PyValue.i 12345⟩
      = PyValue.s "NCBIGene:12345" := by
  decide
